import Mathlib

/-!
Verification of the USD currency-conversion app (src/streamlit_app.py).

The program has two functions: `get_exchange_rate` (RateFetcher) and `main`
(ConversionView).  We embed them shallowly:

* Machine floats are modelled as exact rationals (`ℚ`).  Every numeric value
  the claims evaluate (100.0, 7.1, 7.2, 150.0, 710.0, ...) is exactly
  representable in both models up to the rendered output, and decimal
  formatting is modelled with round-half-up rounding, which agrees with
  Python float formatting at every value any claim evaluates (none is a tie).
* The network call (`urllib.request.urlopen` + `json.loads`) is modelled by an
  explicit environment `FetchEnv`: either the try-block raised an exception
  before/at parsing (network error, timeout, malformed JSON) whose `str` is a
  given string, or the body parsed to an explicit JSON value on which the
  subscript expressions `data["rates"][target_currency]` run.
* Python subscripting of a JSON-decoded value is modelled by `pySubscript`:
  key lookup on objects, and the appropriate exception for every other shape
  (all such exceptions are caught by the `except` clause of the source).
* Streamlit widget calls are modelled by their data: the selectbox by its
  option list and label function, and the rendered page by a `ViewResult`
  recording whether the fetcher was called, the computed converted amount (if
  any), the ordered list of output widgets emitted, and whether an uncaught
  exception aborted the script.
-/

/-- JSON values as produced by `json.loads`: numbers (int and float collapsed
to an exact rational), strings, booleans, null, arrays and objects. -/
inductive Json where
  | num (q : ℚ)
  | str (s : String)
  | bool (b : Bool)
  | null
  | arr (elems : List Json)
  | obj (fields : List (String × Json))

/-- Python subscripting `j[k]` with a string key on a JSON-decoded value:
object lookup on dicts, and for every other shape the exception that CPython
raises (its `str`), all of which the source catches.  `str(KeyError(k))` is
`"'k'"`. -/
def pySubscript (j : Json) (k : String) : Except String Json :=
  match j with
  | Json.obj fields =>
    match List.lookup k fields with
    | some v => Except.ok v
    | none => Except.error ("'" ++ k ++ "'")
  | Json.arr _ => Except.error "list indices must be integers or slices, not str"
  | Json.str _ => Except.error "string indices must be integers"
  | Json.num _ => Except.error "'float' object is not subscriptable"
  | Json.bool _ => Except.error "'bool' object is not subscriptable"
  | Json.null => Except.error "'NoneType' object is not subscriptable"

/-- Numeric coercion used by Python float multiplication and float formatting:
numbers are themselves, booleans count as 0/1, every other value raises a
TypeError (modelled as `none`). -/
def Json.toNum : Json → Option ℚ
  | Json.num q => some q
  | Json.bool b => some (if b then 1 else 0)
  | _ => none

/-- Outcome of the try-block up to and including `json.loads`:
either some exception was raised there (network failure, timeout, malformed
JSON — `e` is its `str`), or the response body parsed to the given JSON
value. -/
inductive FetchEnv where
  | exn (e : String)
  | parsed (data : Json)

/-- `default_rates` dictionary of `get_exchange_rate`
(src/streamlit_app.py:26-29). -/
def default_rates (c : String) : Option ℚ :=
  List.lookup c [("CNY", (7.2 : ℚ)), ("JPY", (150.0 : ℚ))]

/-- `default_rates.get(target_currency, 1.0)` (src/streamlit_app.py:48). -/
def fallback_rate (c : String) : ℚ :=
  (default_rates c).getD 1.0

/-- Python `str()` of the fallback float as interpolated into the error
f-string: `str(7.2) = "7.2"`, `str(150.0) = "150.0"`, `str(1.0) = "1.0"`. -/
def fallback_rate_str (c : String) : String :=
  if c = "CNY" then "7.2" else if c = "JPY" then "150.0" else "1.0"

/-- The error f-string of src/streamlit_app.py:49, with `e` the `str` of the
caught exception. -/
def rate_error_message (c e : String) : String :=
  "获取实时汇率失败：" ++ e ++ "（已使用默认汇率 " ++ fallback_rate_str c ++ "，仅供参考）"

/-- `get_exchange_rate` (src/streamlit_app.py:14-49).  Given the outcome of
the network call and JSON parse, evaluates `data["rates"][target_currency]`;
any exception (from the network, the parse, or the subscripting) falls into
the `except` clause, which returns the fallback rate and the error message.
The first component is the JSON value reached by `return rate` — the source
returns it unchecked, so it need not be a number. -/
def get_exchange_rate (target_currency : String) (env : FetchEnv) :
    Json × Option String :=
  match env with
  | FetchEnv.exn e =>
    (Json.num (fallback_rate target_currency),
     some (rate_error_message target_currency e))
  | FetchEnv.parsed data =>
    match pySubscript data "rates" with
    | Except.error e =>
      (Json.num (fallback_rate target_currency),
       some (rate_error_message target_currency e))
    | Except.ok rates =>
      match pySubscript rates target_currency with
      | Except.error e =>
        (Json.num (fallback_rate target_currency),
         some (rate_error_message target_currency e))
      | Except.ok rate => (rate, none)

/-- A response body of the documented shape `\x7b"rates": \x7b"<CODE>":
<float>\x7d\x7d` for the given code and rate. -/
def well_formed_body (t : String) (r : ℚ) : Json :=
  Json.obj [("rates", Json.obj [(t, Json.num r)])]

/-- Left-pad a digit string with zeros to width `p`. -/
def padZeros (p : ℕ) (s : String) : String :=
  String.mk (List.replicate (p - s.length) '0') ++ s

/-- Digits of a magnitude already scaled to an integer count `n` of
`10 ^ -p` units: integer part, dot, `p` fractional digits. -/
def formatDigits (p n : ℕ) : String :=
  toString (n / 10 ^ p) ++ "." ++ padZeros p (toString (n % 10 ^ p))

/-- Python fixed-point formatting `format(q, ".pf")` on the rational model:
round to `p` decimal places and print with exactly `p` fractional digits.
Rounding is half-up; Python rounds the exact binary float half-even, and the
two agree at every non-tie value, in particular everywhere a claim evaluates
the formatter. -/
def formatFixed (p : ℕ) (q : ℚ) : String :=
  (if q < 0 then "-" else "") ++ formatDigits p (⌊|q| * (10 : ℚ) ^ p + 1 / 2⌋).toNat

/-- Insert a comma after every 3 digits of a reversed digit list (the
thousands grouping of Python `","` formatting, working from the right). -/
def groupThousandsRev : List Char → List Char
  | a :: b :: c :: d :: rest => a :: b :: c :: ',' :: groupThousandsRev (d :: rest)
  | ds => ds

/-- Digits with thousands separators, same scaled input as `formatDigits`. -/
def formatCommaDigits (p n : ℕ) : String :=
  String.mk (groupThousandsRev (toString (n / 10 ^ p)).data.reverse).reverse ++ "." ++
    padZeros p (toString (n % 10 ^ p))

/-- Python `format(q, ",.pf")`: fixed-point with `p` decimals and thousands
separators in the integer part. -/
def formatCommaFixed (p : ℕ) (q : ℚ) : String :=
  (if q < 0 then "-" else "") ++ formatCommaDigits p (⌊|q| * (10 : ℚ) ^ p + 1 / 2⌋).toNat

/-- The options list of the `st.selectbox` call (src/streamlit_app.py:61-65). -/
def selector_options : List String := ["CNY", "JPY"]

/-- The `format_func` lambda of the selectbox: the localized label shown for
each option (src/streamlit_app.py:64). -/
def selector_label (x : String) : String :=
  if x = "CNY" then "人民币 (CNY)" else "日元 (JPY)"

/-- The `currency_info` dictionary of `main` (src/streamlit_app.py:93-96),
as the partial map it defines: code ↦ (symbol, name).  Subscripting it with a
key outside its domain raises `KeyError` (modelled as `none`). -/
def currency_info (c : String) : Option (String × String) :=
  List.lookup c [("CNY", ("¥", "人民币")), ("JPY", ("¥", "日元"))]

/-- One output widget emitted into the page's result area: `st.error`,
`st.warning`, `st.success` or `st.write`. -/
inductive Output where
  | error (s : String)
  | warning (s : String)
  | success (s : String)
  | write (s : String)
deriving DecidableEq

/-- The observable result of one run of `main` past the static page chrome
(title and description, which are emitted unconditionally): whether
`get_exchange_rate` was invoked, the computed `converted_amount` (if the
multiplication on line 90 was reached), the ordered output widgets, and the
`str` of an uncaught exception if one aborted the script. -/
structure ViewResult where
  fetchCalled : Bool
  converted : Option ℚ
  outputs : List Output
  raised : Option String
deriving DecidableEq

/-- Placeholder `str` for the TypeError raised by `usd_amount * rate` when
the fetched rate is not numeric (src/streamlit_app.py:90); no claim inspects
its text, only that the script aborts there. -/
def mul_type_error : String := "unsupported operand type(s) for *"

/-- The error message of the negative-amount validation
(src/streamlit_app.py:77). -/
def negative_amount_error : String := "❌ 错误：不能输入负数！请输入大于等于 0 的金额。"

/-- Lines 81-105 of `main`: the button branch after a fetch returned
`(rateJ, errMsg)`.  Shows the warning if an error message is present,
computes `converted_amount = usd_amount * rate` (raising if the rate is not
numeric), subscripts `currency_info` (raising KeyError for codes outside
CNY/JPY), then emits the success banner and the three formatted result
lines. -/
def postFetch (usd_amount : ℚ) (target_currency : String) (rateJ : Json)
    (errMsg : Option String) : ViewResult :=
  let warn := match errMsg with
    | some m => [Output.warning m]
    | none => []
  match Json.toNum rateJ with
  | none =>
    { fetchCalled := true, converted := none, outputs := warn,
      raised := some mul_type_error }
  | some rate =>
    let converted_amount := usd_amount * rate
    match currency_info target_currency with
    | none =>
      { fetchCalled := true, converted := some converted_amount, outputs := warn,
        raised := some ("'" ++ target_currency ++ "'") }
    | some (currency_symbol, currency_name) =>
      { fetchCalled := true, converted := some converted_amount,
        outputs := warn ++
          [Output.success "转换完成！",
           Output.write ("**美元金额：** $" ++ formatFixed 2 usd_amount),
           Output.write ("**当前汇率：** 1 USD = " ++ formatFixed 4 rate ++
             " " ++ target_currency),
           Output.write ("**" ++ currency_name ++ "金额：** " ++ currency_symbol ++
             formatCommaFixed 2 converted_amount)],
        raised := none }

/-- `main` (src/streamlit_app.py:52-105) past the static chrome, as a function
of the selected currency, the entered amount, whether the convert button was
pressed this run, and the network environment.  A negative amount shows the
validation error and returns before the button branch; otherwise, if the
button was pressed, the fetch runs and `postFetch` renders. -/
def mainModel (target_currency : String) (usd_amount : ℚ) (pressed : Bool)
    (env : FetchEnv) : ViewResult :=
  if usd_amount < 0 then
    { fetchCalled := false, converted := none,
      outputs := [Output.error negative_amount_error], raised := none }
  else if pressed then
    postFetch usd_amount target_currency
      (get_exchange_rate target_currency env).1
      (get_exchange_rate target_currency env).2
  else
    { fetchCalled := false, converted := none, outputs := [], raised := none }

/-! ### Helper lemmas -/

lemma formatFixed_eval (p : ℕ) (q : ℚ) (n : ℕ) (h0 : 0 ≤ q)
    (h : ⌊q * (10 : ℚ) ^ p + 1 / 2⌋ = (n : ℤ)) :
    formatFixed p q = formatDigits p n := by
  unfold formatFixed
  rw [abs_of_nonneg h0, h, if_neg (not_lt.mpr h0)]
  simp

lemma formatCommaFixed_eval (p : ℕ) (q : ℚ) (n : ℕ) (h0 : 0 ≤ q)
    (h : ⌊q * (10 : ℚ) ^ p + 1 / 2⌋ = (n : ℤ)) :
    formatCommaFixed p q = formatCommaDigits p n := by
  unfold formatCommaFixed
  rw [abs_of_nonneg h0, h, if_neg (not_lt.mpr h0)]
  simp

/-- A well-formed response body makes the fetch succeed with exactly the
embedded rate and no error message. -/
lemma get_exchange_rate_success (t : String) (r : ℚ) :
    get_exchange_rate t (FetchEnv.parsed (well_formed_body t r)) = (Json.num r, none) := by
  simp [get_exchange_rate, well_formed_body, pySubscript, List.lookup]

/-- Whenever the fetch reports an error, the rate it returns is the fallback
rate and the message is the error f-string for some exception text. -/
lemma get_exchange_rate_error_fallback (t : String) (env : FetchEnv)
    (h : ((get_exchange_rate t env).2).isSome) :
    (get_exchange_rate t env).1 = Json.num (fallback_rate t) ∧
      ∃ e, (get_exchange_rate t env).2 = some (rate_error_message t e) := by
  match env with
  | FetchEnv.exn e => exact ⟨rfl, e, rfl⟩
  | FetchEnv.parsed data =>
    unfold get_exchange_rate at h ⊢
    match h1 : pySubscript data "rates" with
    | Except.error e => simp [h1]
    | Except.ok rates =>
      match h2 : pySubscript rates t with
      | Except.error e => simp [h1, h2]
      | Except.ok v => simp [h1, h2] at h

/-- If the subscript chain `data["rates"][t]` succeeds on the parsed body,
the fetch returns the found value with no error. -/
lemma get_parsed_success (t : String) (data : Json) (fs : List (String × Json))
    (rs : List (String × Json)) (v : Json) (h1 : data = Json.obj fs)
    (h2 : List.lookup "rates" fs = some (Json.obj rs))
    (h3 : List.lookup t rs = some v) :
    get_exchange_rate t (FetchEnv.parsed data) = (v, none) := by
  subst h1
  simp [get_exchange_rate, pySubscript, h2, h3]

/-- If the subscript chain `data["rates"][t]` cannot succeed on the parsed
body, the fetch returns the fallback rate and an error message. -/
lemma get_parsed_failure (t : String) (data : Json)
    (h : ∀ fs rs v, data = Json.obj fs →
      List.lookup "rates" fs = some (Json.obj rs) →
      List.lookup t rs = some v → False) :
    ∃ e, get_exchange_rate t (FetchEnv.parsed data) =
      (Json.num (fallback_rate t), some (rate_error_message t e)) := by
  match data with
  | Json.num q => exact ⟨_, rfl⟩
  | Json.str s => exact ⟨_, rfl⟩
  | Json.bool b => exact ⟨_, rfl⟩
  | Json.null => exact ⟨_, rfl⟩
  | Json.arr es => exact ⟨_, rfl⟩
  | Json.obj fs =>
    match h1 : List.lookup "rates" fs with
    | none =>
      exact ⟨"'rates'", by simp [get_exchange_rate, pySubscript, h1]⟩
    | some j =>
      match j, h1 with
      | Json.num q, h1 =>
        exact ⟨"'float' object is not subscriptable",
          by simp [get_exchange_rate, pySubscript, h1]⟩
      | Json.str s, h1 =>
        exact ⟨"string indices must be integers",
          by simp [get_exchange_rate, pySubscript, h1]⟩
      | Json.bool b, h1 =>
        exact ⟨"'bool' object is not subscriptable",
          by simp [get_exchange_rate, pySubscript, h1]⟩
      | Json.null, h1 =>
        exact ⟨"'NoneType' object is not subscriptable",
          by simp [get_exchange_rate, pySubscript, h1]⟩
      | Json.arr es, h1 =>
        exact ⟨"list indices must be integers or slices, not str",
          by simp [get_exchange_rate, pySubscript, h1]⟩
      | Json.obj rs, h1 =>
        match h2 : List.lookup t rs with
        | none =>
          exact ⟨"'" ++ t ++ "'",
            by simp [get_exchange_rate, pySubscript, h1, h2]⟩
        | some v => exact absurd rfl (fun hh => h fs rs v hh h1 h2)

/-- If the fetch on a parsed body reports no error, the body was an object
whose "rates" field is an object containing the requested key, and the
returned value is exactly the one stored there. -/
lemma get_parsed_success_inv (t : String) (data : Json)
    (h : (get_exchange_rate t (FetchEnv.parsed data)).2 = none) :
    ∃ fs rs, data = Json.obj fs ∧
      List.lookup "rates" fs = some (Json.obj rs) ∧
      List.lookup t rs = some (get_exchange_rate t (FetchEnv.parsed data)).1 := by
  by_cases hc : ∀ fs rs v, data = Json.obj fs →
      List.lookup "rates" fs = some (Json.obj rs) → List.lookup t rs = some v → False
  · obtain ⟨e, he⟩ := get_parsed_failure t data hc
    rw [he] at h
    simp at h
  · push_neg at hc
    obtain ⟨fs, rs, v, h1, h2, h3, _⟩ := hc
    refine ⟨fs, rs, h1, h2, ?_⟩
    rw [get_parsed_success t data fs rs v h1 h2 h3]
    exact h3

/-! ### Claim theorems -/

/-- C1: for every amount `a ≥ 0` and rate `r > 0`, when the fetch returns the
numeric rate `r`, the converted amount computed by the view is exactly
`a * r` (floats are modelled as exact rationals, so exact equality holds and
in particular the 1e-9 relative tolerance). -/
theorem converted_amount_exact (a r : ℚ) (t : String) (env : FetchEnv)
    (ha : 0 ≤ a) (hr : 0 < r)
    (hfetch : (get_exchange_rate t env).1 = Json.num r) :
    (mainModel t a true env).converted = some (a * r) := by
  unfold mainModel
  rw [if_neg (not_lt.mpr ha), if_pos rfl, hfetch]
  unfold postFetch
  cases hci : currency_info t with
  | none => simp [Json.toNum, hci]
  | some info =>
    obtain ⟨sym, nm⟩ := info
    simp [Json.toNum, hci]

/-- Witness for C1 at amount 100, currency CNY, fetched rate 7.1. -/
theorem converted_amount_exact_witness :
    (mainModel "CNY" 100 true
      (FetchEnv.parsed (well_formed_body "CNY" (71 / 10)))).converted =
      some (100 * (71 / 10)) :=
  converted_amount_exact 100 (71 / 10) "CNY"
    (FetchEnv.parsed (well_formed_body "CNY" (71 / 10)))
    (by norm_num) (by norm_num) (by rw [get_exchange_rate_success])

/-- C2: on every failing lookup, `get_exchange_rate` returns the static
fallback rate (CNY → 7.2, JPY → 150.0, anything else → 1.0) together with an
error string that embeds the underlying failure reason and the fallback value
used. -/
theorem fallback_on_failure (t : String) (env : FetchEnv)
    (h : ((get_exchange_rate t env).2).isSome) :
    (get_exchange_rate t env).1 =
      Json.num (if t = "CNY" then (7.2 : ℚ) else if t = "JPY" then 150.0 else 1.0) ∧
    ∃ e, (get_exchange_rate t env).2 =
      some ("获取实时汇率失败：" ++ e ++ "（已使用默认汇率 " ++
        fallback_rate_str t ++ "，仅供参考）") := by
  obtain ⟨h1, e, h2⟩ := get_exchange_rate_error_fallback t env h
  refine ⟨?_, e, h2⟩
  rw [h1]
  congr 1
  unfold fallback_rate default_rates
  by_cases hC : t = "CNY"
  · simp [hC, List.lookup]
  · by_cases hJ : t = "JPY"
    · have hC2 : (t == "CNY") = false := beq_eq_false_iff_ne.mpr hC
      simp [hJ, hC2, List.lookup]
    · have hC2 : (t == "CNY") = false := beq_eq_false_iff_ne.mpr hC
      have hJ2 : (t == "JPY") = false := beq_eq_false_iff_ne.mpr hJ
      simp [hC, hJ, hC2, hJ2, List.lookup]

/-- Witness for C2: a timed-out lookup for JPY. -/
theorem fallback_on_failure_witness :
    (get_exchange_rate "JPY" (FetchEnv.exn "timed out")).1 =
      Json.num (if "JPY" = "CNY" then (7.2 : ℚ) else if "JPY" = "JPY" then 150.0 else 1.0) ∧
    ∃ e, (get_exchange_rate "JPY" (FetchEnv.exn "timed out")).2 =
      some ("获取实时汇率失败：" ++ e ++ "（已使用默认汇率 " ++
        fallback_rate_str "JPY" ++ "，仅供参考）") :=
  fallback_on_failure "JPY" (FetchEnv.exn "timed out") (by rfl)

/-- C3: a negative amount shows the validation error and aborts: the fetcher
is not called, no conversion is computed, and the error is the only output,
whatever the button state and the network environment. -/
theorem negative_amount_aborts (t : String) (a : ℚ) (pressed : Bool)
    (env : FetchEnv) (h : a < 0) :
    mainModel t a pressed env =
      { fetchCalled := false, converted := none,
        outputs := [Output.error negative_amount_error], raised := none } := by
  unfold mainModel
  rw [if_pos h]

/-- Witness for C3 at amount -5. -/
theorem negative_amount_aborts_witness :
    mainModel "CNY" (-5) true (FetchEnv.exn "unreachable") =
      { fetchCalled := false, converted := none,
        outputs := [Output.error negative_amount_error], raised := none } :=
  negative_amount_aborts "CNY" (-5) true (FetchEnv.exn "unreachable") (by norm_num)

/-- C4 counterexample: the body \x7b"rates": \x7b"CNY": "oops"\x7d\x7d is not
of the shape \x7b"rates": \x7b"<CODE>": <float>\x7d\x7d (the value under the
key is a string, not a float), yet `get_exchange_rate` returns it with no
error message instead of treating it as a failure. -/
theorem nonfloat_rate_returned_without_error :
    (∀ q : ℚ, Json.str "oops" ≠ Json.num q) ∧
    get_exchange_rate "CNY"
      (FetchEnv.parsed (Json.obj [("rates", Json.obj [("CNY", Json.str "oops")])])) =
      (Json.str "oops", none) :=
  ⟨fun _ h => Json.noConfusion h, rfl⟩

/-- C4 (amended): on a successful lookup `get_exchange_rate` extracts the
value under the requested currency key inside the "rates" object and returns
it with no error message; a body on which the subscript chain
`data["rates"][code]` cannot succeed (missing keys or a non-object along the
path) is treated as a failure — but a value present under the key is returned
as-is, with no error, even when it is not a float. -/
theorem rate_extraction_spec (t : String) (data : Json) :
    (∀ fs rs v, data = Json.obj fs →
        List.lookup "rates" fs = some (Json.obj rs) →
        List.lookup t rs = some v →
        get_exchange_rate t (FetchEnv.parsed data) = (v, none)) ∧
    ((∀ fs rs v, data = Json.obj fs →
        List.lookup "rates" fs = some (Json.obj rs) →
        List.lookup t rs = some v → False) →
      ∃ e, get_exchange_rate t (FetchEnv.parsed data) =
        (Json.num (fallback_rate t), some (rate_error_message t e))) :=
  ⟨fun fs rs v h1 h2 h3 => get_parsed_success t data fs rs v h1 h2 h3,
   fun h => get_parsed_failure t data h⟩

/-- Witness for C4 (amended) at a well-formed CNY body with rate 5. -/
theorem rate_extraction_spec_witness :
    get_exchange_rate "CNY" (FetchEnv.parsed (well_formed_body "CNY" 5)) =
      (Json.num 5, none) :=
  (rate_extraction_spec "CNY" (well_formed_body "CNY" 5)).1
    [("rates", Json.obj [("CNY", Json.num 5)])] [("CNY", Json.num 5)]
    (Json.num 5) rfl rfl rfl

/-- C5: whenever the fetch returns an error message, the view shows it as a
warning (first output) and the conversion still completes with the fallback
rate: nothing is raised, the converted amount is computed from the fallback
rate, and the full success rendering follows the warning. -/
theorem lookup_failure_nonblocking (a : ℚ) (t : String) (env : FetchEnv)
    (m : String) (ha : 0 ≤ a) (ht : t = "CNY" ∨ t = "JPY")
    (herr : (get_exchange_rate t env).2 = some m) :
    ∃ sym nm, currency_info t = some (sym, nm) ∧
      mainModel t a true env =
        { fetchCalled := true,
          converted := some (a * fallback_rate t),
          outputs := [Output.warning m, Output.success "转换完成！",
            Output.write ("**美元金额：** $" ++ formatFixed 2 a),
            Output.write ("**当前汇率：** 1 USD = " ++
              formatFixed 4 (fallback_rate t) ++ " " ++ t),
            Output.write ("**" ++ nm ++ "金额：** " ++ sym ++
              formatCommaFixed 2 (a * fallback_rate t))],
          raised := none } := by
  have hsome : ((get_exchange_rate t env).2).isSome := by rw [herr]; rfl
  obtain ⟨h1, _, _⟩ := get_exchange_rate_error_fallback t env hsome
  rcases ht with h | h
  · subst h
    refine ⟨"¥", "人民币", rfl, ?_⟩
    unfold mainModel
    rw [if_neg (not_lt.mpr ha), if_pos rfl, h1, herr]
    unfold postFetch
    simp [Json.toNum, currency_info, List.lookup]
  · subst h
    refine ⟨"¥", "日元", rfl, ?_⟩
    unfold mainModel
    rw [if_neg (not_lt.mpr ha), if_pos rfl, h1, herr]
    unfold postFetch
    simp [Json.toNum, currency_info, List.lookup]

/-- Witness for C5: a network failure for JPY at amount 2. -/
theorem lookup_failure_nonblocking_witness :
    ∃ sym nm, currency_info "JPY" = some (sym, nm) ∧
      mainModel "JPY" 2 true (FetchEnv.exn "boom") =
        { fetchCalled := true,
          converted := some (2 * fallback_rate "JPY"),
          outputs := [Output.warning (rate_error_message "JPY" "boom"),
            Output.success "转换完成！",
            Output.write ("**美元金额：** $" ++ formatFixed 2 2),
            Output.write ("**当前汇率：** 1 USD = " ++
              formatFixed 4 (fallback_rate "JPY") ++ " " ++ "JPY"),
            Output.write ("**" ++ nm ++ "金额：** " ++ sym ++
              formatCommaFixed 2 (2 * fallback_rate "JPY"))],
          raised := none } :=
  lookup_failure_nonblocking 2 "JPY" (FetchEnv.exn "boom")
    (rate_error_message "JPY" "boom") (by norm_num) (Or.inr rfl) rfl

/-- C6: the rendered result shows the USD amount with 2 decimals, the rate as
"1 USD = X.XXXX CODE" with 4 decimals, and the converted amount with the
currency symbol, thousands separators and 2 decimals; in particular for
amount 100, currency CNY and fetched rate 7.1 the page shows
"1 USD = 7.1000 CNY" and "¥710.00". -/
theorem rendered_result_format :
    (∀ (a r : ℚ) (t sym nm : String), 0 ≤ a →
      currency_info t = some (sym, nm) →
      (mainModel t a true (FetchEnv.parsed (well_formed_body t r))).outputs =
        [Output.success "转换完成！",
         Output.write ("**美元金额：** $" ++ formatFixed 2 a),
         Output.write ("**当前汇率：** 1 USD = " ++ formatFixed 4 r ++ " " ++ t),
         Output.write ("**" ++ nm ++ "金额：** " ++ sym ++
           formatCommaFixed 2 (a * r))]) ∧
    (mainModel "CNY" 100 true
        (FetchEnv.parsed (well_formed_body "CNY" (71 / 10)))).outputs =
      [Output.success "转换完成！",
       Output.write "**美元金额：** $100.00",
       Output.write "**当前汇率：** 1 USD = 7.1000 CNY",
       Output.write "**人民币金额：** ¥710.00"] := by
  have hgen : ∀ (a r : ℚ) (t sym nm : String), 0 ≤ a →
      currency_info t = some (sym, nm) →
      (mainModel t a true (FetchEnv.parsed (well_formed_body t r))).outputs =
        [Output.success "转换完成！",
         Output.write ("**美元金额：** $" ++ formatFixed 2 a),
         Output.write ("**当前汇率：** 1 USD = " ++ formatFixed 4 r ++ " " ++ t),
         Output.write ("**" ++ nm ++ "金额：** " ++ sym ++
           formatCommaFixed 2 (a * r))] := by
    intro a r t sym nm ha hci
    unfold mainModel
    rw [if_neg (not_lt.mpr ha), if_pos rfl, get_exchange_rate_success]
    unfold postFetch
    simp [Json.toNum, hci]
  refine ⟨hgen, ?_⟩
  rw [hgen 100 (71 / 10) "CNY" "¥" "人民币" (by norm_num) rfl,
    formatFixed_eval 2 100 10000 (by norm_num) (by norm_num),
    formatFixed_eval 4 (71 / 10) 71000 (by norm_num) (by norm_num),
    formatCommaFixed_eval 2 (100 * (71 / 10)) 71000 (by norm_num) (by norm_num)]
  decide

/-- Witness for C6 at amount 0, currency JPY, rate 150. -/
theorem rendered_result_format_witness :
    (mainModel "JPY" 0 true (FetchEnv.parsed (well_formed_body "JPY" 150))).outputs =
      [Output.success "转换完成！",
       Output.write ("**美元金额：** $" ++ formatFixed 2 0),
       Output.write ("**当前汇率：** 1 USD = " ++ formatFixed 4 150 ++ " " ++ "JPY"),
       Output.write ("**" ++ "日元" ++ "金额：** " ++ "¥" ++
         formatCommaFixed 2 (0 * 150))] :=
  rendered_result_format.1 0 150 "JPY" "¥" "日元" (by norm_num) rfl

/-- C7: the conversion pipeline is deterministic in its inputs and the
fetched rate: two runs with the same amount, currency and button state whose
fetches return the same result render identically. -/
theorem conversion_deterministic (t : String) (a : ℚ) (pressed : Bool)
    (env1 env2 : FetchEnv)
    (h : get_exchange_rate t env1 = get_exchange_rate t env2) :
    mainModel t a pressed env1 = mainModel t a pressed env2 := by
  unfold mainModel
  rw [h]

/-- Witness for C7: two different response bodies carrying the same rate
render the same page. -/
theorem conversion_deterministic_witness :
    mainModel "CNY" 100 true (FetchEnv.parsed (well_formed_body "CNY" 5)) =
      mainModel "CNY" 100 true (FetchEnv.parsed (Json.obj
        [("rates", Json.obj [("CNY", Json.num 5), ("base", Json.str "USD")])])) :=
  conversion_deterministic "CNY" 100 true
    (FetchEnv.parsed (well_formed_body "CNY" 5))
    (FetchEnv.parsed (Json.obj
      [("rates", Json.obj [("CNY", Json.num 5), ("base", Json.str "USD")])]))
    rfl

/-- C8: the selector offers exactly the two options CNY and JPY, each with a
localized label; both currencies carry the display symbol "¥" but distinct
currency names, so rendered results stay distinguishable. -/
theorem selector_two_options_shared_symbol :
    selector_options = ["CNY", "JPY"] ∧
    selector_options.length = 2 ∧
    selector_label "CNY" = "人民币 (CNY)" ∧
    selector_label "JPY" = "日元 (JPY)" ∧
    ∃ sym nmC nmJ, currency_info "CNY" = some (sym, nmC) ∧
      currency_info "JPY" = some (sym, nmJ) ∧ sym = "¥" ∧ nmC ≠ nmJ :=
  ⟨rfl, rfl, rfl, rfl, "¥", "人民币", "日元", rfl, rfl, rfl, by decide⟩

/-- C9 counterexample: a successful lookup may return a non-positive rate:
for the body \x7b"rates": \x7b"CNY": -3\x7d\x7d the function returns the rate
-3 with no error, so the returned rate is not strictly positive. -/
theorem fetched_rate_not_positive :
    get_exchange_rate "CNY" (FetchEnv.parsed (well_formed_body "CNY" (-3))) =
      (Json.num (-3), none) ∧
    ¬ ((0 : ℚ) < -3) :=
  ⟨rfl, by norm_num⟩

/-- C9 (amended): `get_exchange_rate` is total — it always returns a
(rate, errorMessage) pair; whenever it reports an error the rate is the
strictly positive fallback 7.2, 150.0 or 1.0, and whenever it reports no
error the returned value is exactly the one fetched from the body, which
need not be positive (nor numeric). -/
theorem fetch_total_fallback_positive (t : String) (env : FetchEnv) :
    (((get_exchange_rate t env).2).isSome →
      (get_exchange_rate t env).1 = Json.num (fallback_rate t) ∧
      0 < fallback_rate t ∧
      (fallback_rate t = 7.2 ∨ fallback_rate t = 150.0 ∨ fallback_rate t = 1.0)) ∧
    ((get_exchange_rate t env).2 = none →
      ∃ data fs rs, env = FetchEnv.parsed data ∧ data = Json.obj fs ∧
        List.lookup "rates" fs = some (Json.obj rs) ∧
        List.lookup t rs = some (get_exchange_rate t env).1) := by
  have hfall : 0 < fallback_rate t ∧
      (fallback_rate t = 7.2 ∨ fallback_rate t = 150.0 ∨ fallback_rate t = 1.0) := by
    unfold fallback_rate default_rates
    by_cases hC : t = "CNY"
    · simp [hC, List.lookup]
      norm_num
    · have hC2 : (t == "CNY") = false := beq_eq_false_iff_ne.mpr hC
      by_cases hJ : t = "JPY"
      · simp [hJ, List.lookup]
        norm_num
      · have hJ2 : (t == "JPY") = false := beq_eq_false_iff_ne.mpr hJ
        simp [List.lookup, hC2, hJ2]
        norm_num
  constructor
  · intro h
    exact ⟨(get_exchange_rate_error_fallback t env h).1, hfall.1, hfall.2⟩
  · intro h
    match env with
    | FetchEnv.exn e => simp [get_exchange_rate] at h
    | FetchEnv.parsed data =>
      obtain ⟨fs, rs, h1, h2, h3⟩ := get_parsed_success_inv t data h
      exact ⟨data, fs, rs, rfl, h1, h2, h3⟩

/-- Witness for C9 (amended): a network failure for an unrecognized currency
still yields the positive 1.0 fallback. -/
theorem fetch_total_fallback_positive_witness :
    (get_exchange_rate "EUR" (FetchEnv.exn "connection refused")).1 =
      Json.num (fallback_rate "EUR") ∧
    0 < fallback_rate "EUR" ∧
    (fallback_rate "EUR" = 7.2 ∨ fallback_rate "EUR" = 150.0 ∨
      fallback_rate "EUR" = 1.0) :=
  (fetch_total_fallback_positive "EUR" (FetchEnv.exn "connection refused")).1 rfl

/-- C10: `currency_info` is defined exactly on CNY and JPY.  For those two
codes (the only ones the selector can produce) the rendering path raises
nothing; for any other code — which `get_exchange_rate` tolerates with its
1.0 fallback — the run aborts with a KeyError at the `currency_info`
subscript, so the unknown-currency fallback is unreachable through the UI. -/
theorem currency_info_domain (t : String) (a r : ℚ) (ha : 0 ≤ a) :
    ((t = "CNY" ∨ t = "JPY") →
      (currency_info t).isSome ∧
      (mainModel t a true (FetchEnv.parsed (well_formed_body t r))).raised = none) ∧
    (t ≠ "CNY" → t ≠ "JPY" →
      currency_info t = none ∧ fallback_rate t = 1.0 ∧
      (mainModel t a true (FetchEnv.parsed (well_formed_body t r))).fetchCalled = true ∧
      (mainModel t a true (FetchEnv.parsed (well_formed_body t r))).raised =
        some ("'" ++ t ++ "'")) := by
  constructor
  · rintro (h | h) <;> subst h <;>
      refine ⟨rfl, ?_⟩ <;>
      · unfold mainModel
        rw [if_neg (not_lt.mpr ha), if_pos rfl, get_exchange_rate_success]
        unfold postFetch
        simp [Json.toNum, currency_info, List.lookup]
  · intro hC hJ
    have hC2 : (t == "CNY") = false := beq_eq_false_iff_ne.mpr hC
    have hJ2 : (t == "JPY") = false := beq_eq_false_iff_ne.mpr hJ
    have hci : currency_info t = none := by
      unfold currency_info
      simp [List.lookup, hC2, hJ2]
    refine ⟨hci, ?_, ?_, ?_⟩
    · unfold fallback_rate default_rates
      simp [List.lookup, hC2, hJ2]
    · unfold mainModel
      rw [if_neg (not_lt.mpr ha), if_pos rfl, get_exchange_rate_success]
      unfold postFetch
      simp [Json.toNum, hci]
    · unfold mainModel
      rw [if_neg (not_lt.mpr ha), if_pos rfl, get_exchange_rate_success]
      unfold postFetch
      simp [Json.toNum, hci]

/-- Witness for C10 at the unrecognized code USD. -/
theorem currency_info_domain_witness :
    currency_info "USD" = none ∧ fallback_rate "USD" = 1.0 ∧
    (mainModel "USD" 1 true
      (FetchEnv.parsed (well_formed_body "USD" 2))).fetchCalled = true ∧
    (mainModel "USD" 1 true
      (FetchEnv.parsed (well_formed_body "USD" 2))).raised =
      some ("'" ++ "USD" ++ "'") :=
  (currency_info_domain "USD" 1 2 (by norm_num)).2 (by decide) (by decide)
